import Mathlib

/-!
Verification of the Grantify kanban backend (src/backend/src/main.rs).

The backend is a small HTTP service over a MongoDB collection of task
documents.  We shallowly embed the data model and the five request
handlers: the collection is a `List Task` (in the database's natural
scan order), each database effect (scan, insert, update, find, delete)
is made explicit, and the fallible driver calls are parameters of type
`Except`/`Bool` so that both success and failure branches of each
handler are captured.  MongoDB's `update_one`/`delete_one` affect the
first matching document; `find_one` returns the first match.
-/

namespace Grantify

/-- The database-assigned opaque identifier (`mongodb::bson::oid::ObjectId`). -/
abbrev ObjectId := Nat

/-- Embeds `struct Task` (main.rs lines 7-15): `id` is the internal
`_id` (skipped on serialization when `None`), `task_id` the external
`taskId`, plus `text` and `column`. -/
structure Task where
  id : Option ObjectId
  task_id : String
  text : String
  column : String
deriving DecidableEq

/-- Embeds `struct TasksResponse` (lines 17-22). -/
structure TasksResponse where
  todo : List Task
  active : List Task
  completed : List Task
deriving DecidableEq

/-- Embeds `struct CreateTaskRequest` (lines 24-27): the body of a
create request carries only `text`; any other field (such as a
client-supplied `column`) is dropped at deserialization. -/
structure CreateTaskRequest where
  text : String
deriving DecidableEq

/-- Embeds `struct UpdateTaskRequest` (lines 29-33). -/
structure UpdateTaskRequest where
  text : Option String
  column : Option String
deriving DecidableEq

/-- The HTTP responses the handlers produce, by status and payload. -/
inductive Response where
  | okTasks (tasks : TasksResponse)
  | okTask (task : Task)
  | okDeleted (message : String)
  | okHealth (status service : String)
  | created (task : Task)
  | badRequest (error : String)
  | notFound (error : String)
  | serverError (error : String)
deriving DecidableEq

/-- Decimal rendering of a natural number, embedding Rust's `{}`
formatting for the non-negative case. -/
def natDec (n : Nat) : String :=
  if n = 0 then "0" else String.mk (((Nat.digits 10 n).map Nat.digitChar).reverse)

/-- Decimal rendering of an `i64`, embedding Rust's `{}` formatting:
negative values print with a leading minus sign. -/
def intDec : Int → String
  | Int.ofNat n => natDec n
  | Int.negSucc n => "-" ++ natDec (n + 1)

/-- Embeds the id generation of `create_task` (line 86):
`format!("task-{}", chrono::Utc::now().timestamp_millis())`, with the
current wall-clock milliseconds passed in explicitly. -/
def genTaskId (nowMillis : Int) : String :=
  "task-" ++ intDec nowMillis

/-- Embeds the cursor loop of `get_tasks` (lines 51-65): each yielded
record either decodes to a task, which is pushed onto the sequence
matching its `column` (unrecognized columns are dropped), or is a
per-record error, which is logged and skipped. -/
def tasksLoop : List (Except String Task) → TasksResponse → TasksResponse
  | [], acc => acc
  | Except.ok task :: rest, acc =>
      tasksLoop rest
        (match task.column with
          | "todo" => { acc with todo := acc.todo ++ [task] }
          | "active" => { acc with active := acc.active ++ [task] }
          | "completed" => { acc with completed := acc.completed ++ [task] }
          | _ => acc)
  | Except.error _ :: rest, acc => tasksLoop rest acc

/-- Embeds `get_tasks` (lines 39-76).  The argument is the result of
`collection.find(None, None)`: a storage-level error, or the list of
records the cursor yields (each possibly a per-record read error). -/
def get_tasks (scan : Except String (List (Except String Task))) : Response :=
  match scan with
  | Except.ok docs => Response.okTasks (tasksLoop docs ⟨[], [], []⟩)
  | Except.error _ => Response.serverError "Failed to fetch tasks"

/-- Embeds `create_task` (lines 78-100): builds the new task with
`id := None`, a timestamp-generated `taskId`, the request's `text` and
`column := "todo"`, then inserts it; `insertOk` is the outcome of
`collection.insert_one`. -/
def create_task (nowMillis : Int) (req : CreateTaskRequest) (store : List Task)
    (insertOk : Bool) : List Task × Response :=
  let new_task : Task :=
    { id := none, task_id := genTaskId nowMillis, text := req.text, column := "todo" }
  if insertOk then (store ++ [new_task], Response.created new_task)
  else (store, Response.serverError "Failed to create task")

/-- The filter `doc! { "taskId": task_id }` used by update and delete
(lines 109 and 163). -/
def taskMatches (tid : String) (t : Task) : Bool :=
  t.task_id == tid

/-- Embeds the effect of `$set` with the partial update document built
on lines 111-117: exactly the fields present in the body are written. -/
def applySet (req : UpdateTaskRequest) (t : Task) : Task :=
  let t1 := match req.text with
    | some s => { t with text := s }
    | none => t
  match req.column with
  | some c => { t1 with column := c }
  | none => t1

/-- Embeds `collection.update_one(filter, update, None)` (line 127):
applies the `$set` to the first document matching the filter, returning
the new collection state and `matched_count`. -/
def updateFirst (tid : String) (req : UpdateTaskRequest) : List Task → List Task × Nat
  | [] => ([], 0)
  | t :: ts =>
      if taskMatches tid t then (applySet req t :: ts, 1)
      else
        let r := updateFirst tid req ts
        (t :: r.1, r.2)

/-- Embeds `collection.find_one(filter, None)` (line 134): the first
document matching the filter, if any. -/
def findOne (tid : String) (store : List Task) : Option Task :=
  store.find? (taskMatches tid)

/-- Embeds the re-fetch handling of `update_task` (lines 134-145): the
argument is the result of the `find_one` that runs after a successful
update, which may find the document, find nothing (a concurrent delete
won the race), or fail at the storage level. -/
def update_finish (fetched : Except String (Option Task)) : Response :=
  match fetched with
  | Except.ok (some task) => Response.okTask task
  | Except.ok none => Response.notFound "Task not found after update"
  | Except.error _ => Response.serverError "Failed to fetch updated task"

/-- Embeds `update_task` (lines 102-155) on the success path of the
driver calls: the empty-body check precedes any storage access; then
`update_one` runs, a zero `matched_count` yields not-found, and
otherwise the document is re-fetched and returned. -/
def update_task (tid : String) (req : UpdateTaskRequest) (store : List Task) :
    List Task × Response :=
  if req.text.isNone && req.column.isNone then
    (store, Response.badRequest "No fields to update")
  else
    let r := updateFirst tid req store
    if r.2 = 0 then (r.1, Response.notFound "Task not found")
    else (r.1, update_finish (Except.ok (findOne tid r.1)))

/-- Embeds `collection.delete_one(filter, None)` (line 165): removes
the first document matching the filter, returning the new collection
state and `deleted_count`. -/
def deleteFirst (tid : String) : List Task → List Task × Nat
  | [] => ([], 0)
  | t :: ts =>
      if taskMatches tid t then (ts, 1)
      else
        let r := deleteFirst tid ts
        (t :: r.1, r.2)

/-- Embeds `delete_task` (lines 157-184) on the success path of the
driver call: a zero `deleted_count` yields not-found, otherwise a
success confirmation message. -/
def delete_task (tid : String) (store : List Task) : List Task × Response :=
  let r := deleteFirst tid store
  if r.2 = 0 then (r.1, Response.notFound "Task not found")
  else (r.1, Response.okDeleted "Task deleted successfully")

/-- Embeds `health_check` (lines 186-191): a constant payload, built
without access to any application state (the handler takes no
`AppState` argument in the source). -/
def health_check : Response :=
  Response.okHealth "healthy" "kanban-backend"

/-- The tasks a scan successfully decodes, in scan order. -/
def decodedTasks (docs : List (Except String Task)) : List Task :=
  docs.filterMap Except.toOption

lemma tasksLoop_spec (docs : List (Except String Task)) (acc : TasksResponse) :
    tasksLoop docs acc =
      { todo := acc.todo ++ (decodedTasks docs).filter (fun t => t.column == "todo"),
        active := acc.active ++ (decodedTasks docs).filter (fun t => t.column == "active"),
        completed :=
          acc.completed ++ (decodedTasks docs).filter (fun t => t.column == "completed") } := by
  induction docs generalizing acc with
  | nil => simp [tasksLoop, decodedTasks]
  | cons d rest ih =>
    cases d with
    | error e =>
      rw [tasksLoop, ih]
      simp [decodedTasks, Except.toOption]
    | ok t =>
      rw [tasksLoop, ih]
      by_cases h1 : t.column = "todo"
      · simp [decodedTasks, Except.toOption, h1, List.filter_cons]
      · by_cases h2 : t.column = "active"
        · simp [decodedTasks, Except.toOption, h1, h2, List.filter_cons]
        · by_cases h3 : t.column = "completed"
          · simp [decodedTasks, Except.toOption, h1, h2, h3, List.filter_cons]
          · simp [decodedTasks, Except.toOption, h1, h2, h3, List.filter_cons]

lemma decodedTasks_map_ok (ts : List Task) : decodedTasks (ts.map Except.ok) = ts := by
  induction ts with
  | nil => rfl
  | cons t rest ih => simp [decodedTasks, Except.toOption] at ih ⊢; exact ih

/-- Claim C1: listing a scan that yields the task documents `ts`
returns exactly the three sequences keyed `todo`, `active`,
`completed`; each sequence is the subsequence of `ts`, in scan order,
of the tasks whose `column` equals that key (so a task with a
recognized column appears exactly once, in its own sequence, and a task
with any other column appears in none). -/
theorem get_tasks_partitions (ts : List Task) :
    get_tasks (Except.ok (ts.map Except.ok)) =
      Response.okTasks
        { todo := ts.filter (fun t => t.column == "todo"),
          active := ts.filter (fun t => t.column == "active"),
          completed := ts.filter (fun t => t.column == "completed") } := by
  rw [get_tasks, tasksLoop_spec, decodedTasks_map_ok]
  simp

/-- Claim C6: a scan that yields a mix of decoded tasks and per-record
read failures produces a success response partitioning exactly the
successfully decoded records (the failures are skipped), while a
storage-level query failure produces a server error carrying no
partial results. -/
theorem get_tasks_errors (docs : List (Except String Task)) (e : String) :
    get_tasks (Except.ok docs) =
      Response.okTasks
        { todo := (decodedTasks docs).filter (fun t => t.column == "todo"),
          active := (decodedTasks docs).filter (fun t => t.column == "active"),
          completed := (decodedTasks docs).filter (fun t => t.column == "completed") } ∧
    get_tasks (Except.error e) = Response.serverError "Failed to fetch tasks" := by
  constructor
  · rw [get_tasks, tasksLoop_spec]
    simp
  · rfl

/-- Claim C2: a create request persists and returns a task whose
`column` is `"todo"` (the request body cannot even carry a column),
whose `text` is the request's text, whose `taskId` is `task-` followed
by the current wall-clock milliseconds, and whose internal id is absent
from the response; the response has created status, and a persistence
failure yields a server error with the store unchanged. -/
theorem create_task_spec (nowMillis : Int) (req : CreateTaskRequest) (store : List Task) :
    create_task nowMillis req store true =
      (store ++ [⟨none, "task-" ++ intDec nowMillis, req.text, "todo"⟩],
        Response.created ⟨none, "task-" ++ intDec nowMillis, req.text, "todo"⟩) ∧
    create_task nowMillis req store false =
      (store, Response.serverError "Failed to create task") := by
  exact ⟨rfl, rfl⟩

/-- Claim C4: an update whose body has neither `text` nor `column` is
rejected with the `No fields to update` client error and the store is
returned untouched, for every store state. -/
theorem update_task_empty_body (store : List Task) (tid : String) :
    update_task tid { text := none, column := none } store =
      (store, Response.badRequest "No fields to update") := by
  rfl

lemma applySet_task_id (req : UpdateTaskRequest) (t : Task) :
    (applySet req t).task_id = t.task_id := by
  rcases req with ⟨rt, rc⟩
  cases rt <;> cases rc <;> rfl

lemma applySet_id (req : UpdateTaskRequest) (t : Task) :
    (applySet req t).id = t.id := by
  rcases req with ⟨rt, rc⟩
  cases rt <;> cases rc <;> rfl

lemma findOne_some_split (tid : String) (store : List Task) (t0 : Task)
    (h : findOne tid store = some t0) :
    ∃ l1 l2, store = l1 ++ t0 :: l2 ∧ (∀ u ∈ l1, taskMatches tid u = false) ∧
      taskMatches tid t0 = true := by
  induction store with
  | nil => simp [findOne] at h
  | cons t rest ih =>
    by_cases hp : taskMatches tid t
    · rw [findOne, List.find?_cons_of_pos _ hp] at h
      cases h
      exact ⟨[], rest, rfl, by simp, hp⟩
    · rw [findOne, List.find?_cons_of_neg _ (by simpa using hp)] at h
      obtain ⟨l1, l2, heq, hl1, hp0⟩ := ih h
      exact ⟨t :: l1, l2, by simp [heq], by simpa [hp] using hl1, hp0⟩

lemma updateFirst_split (tid : String) (req : UpdateTaskRequest) (l1 : List Task)
    (t0 : Task) (l2 : List Task) (hl1 : ∀ u ∈ l1, taskMatches tid u = false)
    (hp : taskMatches tid t0 = true) :
    updateFirst tid req (l1 ++ t0 :: l2) = (l1 ++ applySet req t0 :: l2, 1) := by
  induction l1 with
  | nil => simp [updateFirst, hp]
  | cons a l ih =>
    have ha : taskMatches tid a = false := hl1 a (by simp)
    have ih2 := ih (fun u hu => hl1 u (by simp [hu]))
    simp [updateFirst, ha, ih2]

lemma findOne_split (tid : String) (l1 : List Task) (t0 : Task) (l2 : List Task)
    (hl1 : ∀ u ∈ l1, taskMatches tid u = false) (hp : taskMatches tid t0 = true) :
    findOne tid (l1 ++ t0 :: l2) = some t0 := by
  induction l1 with
  | nil => simp [findOne, List.find?_cons_of_pos _ hp]
  | cons a l ih =>
    have ha : taskMatches tid a = false := hl1 a (by simp)
    have ih2 := ih (fun u hu => hl1 u (by simp [hu]))
    rw [findOne] at ih2 ⊢
    rw [List.cons_append, List.find?_cons_of_neg _ (by simp [ha])]
    exact ih2

lemma updateFirst_no_match (tid : String) (req : UpdateTaskRequest) (store : List Task)
    (h : ∀ t ∈ store, taskMatches tid t = false) :
    updateFirst tid req store = (store, 0) := by
  induction store with
  | nil => rfl
  | cons t rest ih =>
    have ht : taskMatches tid t = false := h t (by simp)
    have ih2 := ih (fun u hu => h u (by simp [hu]))
    simp [updateFirst, ht, ih2]

lemma deleteFirst_no_match (tid : String) (store : List Task)
    (h : ∀ t ∈ store, taskMatches tid t = false) :
    deleteFirst tid store = (store, 0) := by
  induction store with
  | nil => rfl
  | cons t rest ih =>
    have ht : taskMatches tid t = false := h t (by simp)
    have ih2 := ih (fun u hu => h u (by simp [hu]))
    simp [deleteFirst, ht, ih2]

lemma deleteFirst_cases (tid : String) (store : List Task) :
    deleteFirst tid store = (store, 0) ∨
    ∃ l1 t l2, store = l1 ++ t :: l2 ∧ taskMatches tid t = true ∧
      deleteFirst tid store = (l1 ++ l2, 1) := by
  induction store with
  | nil => exact Or.inl rfl
  | cons a rest ih =>
    by_cases hp : taskMatches tid a
    · exact Or.inr ⟨[], a, rest, rfl, hp, by simp [deleteFirst, hp]⟩
    · cases ih with
      | inl h => exact Or.inl (by simp [deleteFirst, hp, h])
      | inr h =>
        obtain ⟨l1, t, l2, heq, hpt, hdel⟩ := h
        exact Or.inr ⟨a :: l1, t, l2, by simp [heq], hpt, by simp [deleteFirst, hp, hdel]⟩

/-- Claim C3: an update whose body holds only `column` rewrites just
that field: the response is the stored task with only its column
replaced, every document keeps its `taskId`, `text` and internal id,
and after an update to `"active"` the task is listed under `active`
and not under `todo`. -/
theorem update_column_only (store : List Task) (tid c : String) (t0 : Task)
    (h : findOne tid store = some t0) :
    (update_task tid { text := none, column := some c } store).2 =
      Response.okTask { t0 with column := c } ∧
    (update_task tid { text := none, column := some c } store).1.map
        (fun t => (t.task_id, t.text, t.id)) =
      store.map (fun t => (t.task_id, t.text, t.id)) ∧
    (c = "active" →
      ∃ tr : TasksResponse,
        get_tasks (Except.ok
            ((update_task tid { text := none, column := some c } store).1.map Except.ok)) =
          Response.okTasks tr ∧
        { t0 with column := c } ∈ tr.active ∧ { t0 with column := c } ∉ tr.todo) := by
  obtain ⟨l1, l2, heq, hl1, hp⟩ := findOne_some_split tid store t0 h
  subst heq
  have hset : applySet { text := none, column := some c } t0 = { t0 with column := c } := rfl
  have hupd := updateFirst_split tid { text := none, column := some c } l1 t0 l2 hl1 hp
  have hp' : taskMatches tid { t0 with column := c } = true := by
    simpa [taskMatches] using hp
  have hfind := findOne_split tid l1 { t0 with column := c } l2 hl1 hp'
  have hrun : update_task tid { text := none, column := some c } (l1 ++ t0 :: l2) =
      (l1 ++ { t0 with column := c } :: l2,
        Response.okTask { t0 with column := c }) := by
    rw [update_task]
    simp only [Option.isNone_none, Option.isNone_some, Bool.and_false, Bool.false_and,
      if_neg (by simp : ¬((none : Option String).isNone && (some c).isNone = true))]
    rw [hupd, hset]
    simp [update_finish, hfind]
  refine ⟨by rw [hrun], ?_, ?_⟩
  · rw [hrun]
    simp
  · intro hc
    subst hc
    rw [hrun, get_tasks, tasksLoop_spec, decodedTasks_map_ok]
    refine ⟨_, rfl, ?_, ?_⟩
    · simp [List.mem_filter]
    · simp [List.mem_filter]

/-- Claim C5: when no stored document has the target `taskId`, an
update with a nonempty body and a delete both return the plain
not-found response (not a server error) and leave the store unchanged;
and when the post-update re-fetch finds nothing, the response is
not-found with a message distinct from the plain one. -/
theorem missing_task_not_found (store : List Task) (tid : String)
    (req : UpdateTaskRequest) (h : findOne tid store = none)
    (hreq : req.text ≠ none ∨ req.column ≠ none) :
    update_task tid req store = (store, Response.notFound "Task not found") ∧
    delete_task tid store = (store, Response.notFound "Task not found") ∧
    update_finish (Except.ok none) = Response.notFound "Task not found after update" ∧
    update_finish (Except.ok none) ≠ Response.notFound "Task not found" := by
  have hall : ∀ t ∈ store, taskMatches tid t = false := by
    intro t ht
    have := List.find?_eq_none.mp h t ht
    simpa using this
  have hne : (req.text.isNone && req.column.isNone) = false := by
    rcases req with ⟨rt, rc⟩
    cases rt <;> cases rc <;> simp_all
  refine ⟨?_, ?_, rfl, by decide⟩
  · rw [update_task, hne]
    simp [updateFirst_no_match tid req store hall]
  · rw [delete_task]
    simp [deleteFirst_no_match tid store hall]

/-- Claim C9: an update whose body has neither field is answered with
the `No fields to update` client error even when the target `taskId`
matches nothing in the store: the emptiness check runs before any
existence check, so the response is never a not-found. -/
theorem empty_body_before_existence (store : List Task) (tid : String)
    (h : findOne tid store = none) :
    (update_task tid { text := none, column := none } store).2 =
      Response.badRequest "No fields to update" ∧
    ∀ msg : String,
      (update_task tid { text := none, column := none } store).2 ≠
        Response.notFound msg := by
  refine ⟨rfl, ?_⟩
  intro msg hcontra
  exact Response.noConfusion hcontra

/-- Claim C10: one delete removes at most one document — the store is
unchanged, or exactly one document matching the target `taskId` is cut
out — and the documents whose `taskId` differs from the target pass
through unchanged, in order. -/
theorem delete_at_most_one (store : List Task) (tid : String) :
    ((delete_task tid store).1 = store ∨
      ∃ l1 t l2, store = l1 ++ t :: l2 ∧ taskMatches tid t = true ∧
        (delete_task tid store).1 = l1 ++ l2) ∧
    (delete_task tid store).1.filter (fun t => !(taskMatches tid t)) =
      store.filter (fun t => !(taskMatches tid t)) ∧
    store.length ≤ (delete_task tid store).1.length + 1 := by
  cases deleteFirst_cases tid store with
  | inl hdel =>
    rw [delete_task, hdel]
    simp
  | inr hdel =>
    obtain ⟨l1, t, l2, heq, hpt, hdel⟩ := hdel
    subst heq
    rw [delete_task, hdel]
    refine ⟨Or.inr ⟨l1, t, l2, rfl, hpt, rfl⟩, ?_, ?_⟩
    · simp [List.filter_append, hpt]
    · simp
      omega

lemma digitChar_lt_ten_inj {d e : Nat} (hd : d < 10) (he : e < 10)
    (h : Nat.digitChar d = Nat.digitChar e) : d = e := by
  interval_cases d <;> interval_cases e <;> revert h <;> decide

lemma map_digitChar_inj (l1 l2 : List Nat) (h1 : ∀ x ∈ l1, x < 10)
    (h2 : ∀ x ∈ l2, x < 10) (h : l1.map Nat.digitChar = l2.map Nat.digitChar) :
    l1 = l2 := by
  induction l1 generalizing l2 with
  | nil => cases l2 with
    | nil => rfl
    | cons b t2 => simp at h
  | cons a t1 ih =>
    cases l2 with
    | nil => simp at h
    | cons b t2 =>
      simp only [List.map_cons, List.cons.injEq] at h
      have hab : a = b :=
        digitChar_lt_ten_inj (h1 a (by simp)) (h2 b (by simp)) h.1
      have ht : t1 = t2 :=
        ih t2 (fun x hx => h1 x (by simp [hx])) (fun x hx => h2 x (by simp [hx])) h.2
      rw [hab, ht]

lemma natDec_ne_zero_str {n : Nat} (hn : n ≠ 0) : natDec n ≠ "0" := by
  rw [natDec, if_neg hn]
  intro h
  have hd : ((Nat.digits 10 n).map Nat.digitChar).reverse = ['0'] := by
    have := congrArg String.data h
    simpa using this
  have hmap : (Nat.digits 10 n).map Nat.digitChar = ['0'] := by
    rw [← List.reverse_reverse (Nat.digits 10 n |>.map Nat.digitChar), hd]
    rfl
  cases hdig : Nat.digits 10 n with
  | nil => exact absurd hdig (Nat.digits_ne_nil_iff_ne_zero.mpr hn)
  | cons d rest =>
    rw [hdig] at hmap
    simp only [List.map_cons, List.cons.injEq, List.map_eq_nil_iff] at hmap
    have hlt : d < 10 :=
      Nat.digits_lt_base (by norm_num) (by rw [hdig]; simp)
    have hd0 : d = 0 := digitChar_lt_ten_inj hlt (by norm_num) hmap.1
    have : Nat.ofDigits 10 (Nat.digits 10 n) = n := Nat.ofDigits_digits 10 n
    rw [hdig, hmap.2, hd0] at this
    simp [Nat.ofDigits] at this
    exact hn this.symm

lemma natDec_inj {m n : Nat} (h : natDec m = natDec n) : m = n := by
  by_cases hm : m = 0 <;> by_cases hn : n = 0
  · rw [hm, hn]
  · subst hm
    exact absurd h.symm (natDec_ne_zero_str hn)
  · subst hn
    exact absurd h (natDec_ne_zero_str hm)
  · rw [natDec, if_neg hm, natDec, if_neg hn] at h
    have hd := congrArg String.data h
    simp only [List.reverse_inj] at hd
    have hdig : Nat.digits 10 m = Nat.digits 10 n := by
      refine map_digitChar_inj _ _ ?_ ?_ (by simpa using hd)
      · exact fun x hx => Nat.digits_lt_base (by norm_num) hx
      · exact fun x hx => Nat.digits_lt_base (by norm_num) hx
    exact Nat.digits.injective 10 hdig

lemma data_append (s t : String) : (s ++ t).data = s.data ++ t.data := by
  rcases s with ⟨a⟩
  rcases t with ⟨b⟩
  rfl

lemma data_eq_of_eq {s t : String} (h : s.data = t.data) : s = t := by
  rcases s with ⟨a⟩
  rcases t with ⟨b⟩
  exact congrArg String.mk h

lemma dash_not_mem_natDec (n : Nat) : '-' ∉ (natDec n).data := by
  by_cases hn : n = 0
  · rw [hn]
    decide
  · rw [natDec, if_neg hn]
    intro hmem
    simp only [String.mk, List.mem_reverse, List.mem_map] at hmem
    obtain ⟨d, hd, hd2⟩ := hmem
    have hlt : d < 10 := Nat.digits_lt_base (by norm_num) hd
    revert hd2
    interval_cases d <;> decide

lemma intDec_inj {a b : Int} (h : intDec a = intDec b) : a = b := by
  cases a with
  | ofNat m =>
    cases b with
    | ofNat n => exact congrArg Int.ofNat (natDec_inj h)
    | negSucc n =>
      exfalso
      apply dash_not_mem_natDec m
      rw [show intDec (Int.ofNat m) = natDec m from rfl] at h
      rw [h, show intDec (Int.negSucc n) = "-" ++ natDec (n + 1) from rfl, data_append]
      simp
  | negSucc m =>
    cases b with
    | ofNat n =>
      exfalso
      apply dash_not_mem_natDec n
      rw [show intDec (Int.ofNat n) = natDec n from rfl] at h
      rw [← h, show intDec (Int.negSucc m) = "-" ++ natDec (m + 1) from rfl, data_append]
      simp
    | negSucc n =>
      have hd := congrArg String.data h
      rw [show intDec (Int.negSucc m) = "-" ++ natDec (m + 1) from rfl,
        show intDec (Int.negSucc n) = "-" ++ natDec (n + 1) from rfl,
        data_append, data_append] at hd
      simp only [List.append_cancel_left_eq] at hd
      have hmn := natDec_inj (data_eq_of_eq hd)
      have : m = n := by omega
      rw [this]

lemma genTaskId_inj {m n : Int} (h : genTaskId m = genTaskId n) : m = n := by
  apply intDec_inj
  have hd := congrArg String.data h
  rw [genTaskId, genTaskId, data_append, data_append] at hd
  exact data_eq_of_eq (List.append_cancel_left hd)

/-- Claim C7: the generated `taskId` is `task-` followed by the decimal
rendering of the creation timestamp, two creations at distinct
millisecond timestamps generate distinct `taskId`s, and the update
operation never rewrites `taskId` (or the internal id): its `$set`
touches only `text` and `column`. -/
theorem taskId_format_and_distinct (m n : Int) (req : UpdateTaskRequest) (t : Task)
    (h : m ≠ n) :
    genTaskId m = "task-" ++ intDec m ∧
    genTaskId m ≠ genTaskId n ∧
    (applySet req t).task_id = t.task_id ∧
    (applySet req t).id = t.id := by
  exact ⟨rfl, fun hEq => h (genTaskId_inj hEq), applySet_task_id req t, applySet_id req t⟩

/-- Claim C8: the health check returns the same fixed healthy payload
for every store state, reachable or not; the handler reads no state at
all, so the response cannot depend on storage availability. -/
theorem health_check_const (dbState : Except String (List Task)) :
    health_check = Response.okHealth "healthy" "kanban-backend" := by
  rfl

theorem update_column_only_witness :
    (findOne "task-100" [⟨some 1, "task-100", "hello", "todo"⟩] =
        some ⟨some 1, "task-100", "hello", "todo"⟩) ∧
    (update_task "task-100" { text := none, column := some "active" }
        [⟨some 1, "task-100", "hello", "todo"⟩]).2 =
      Response.okTask ⟨some 1, "task-100", "hello", "active"⟩ :=
  ⟨by decide,
    (update_column_only [⟨some 1, "task-100", "hello", "todo"⟩] "task-100" "active"
        ⟨some 1, "task-100", "hello", "todo"⟩ (by decide)).1⟩

theorem missing_task_not_found_witness :
    (findOne "task-9" [] = none) ∧
    update_task "task-9" { text := some "x", column := none } [] =
      ([], Response.notFound "Task not found") :=
  ⟨rfl,
    (missing_task_not_found [] "task-9" { text := some "x", column := none } rfl
        (Or.inl (by decide))).1⟩

theorem taskId_format_and_distinct_witness :
    (0 : Int) ≠ 1 ∧ genTaskId 0 ≠ genTaskId 1 :=
  ⟨by decide,
    (taskId_format_and_distinct 0 1 { text := none, column := none }
        ⟨none, "task-0", "x", "todo"⟩ (by decide)).2.1⟩

theorem empty_body_before_existence_witness :
    (findOne "task-9" [⟨none, "task-1", "a", "todo"⟩] = none) ∧
    (update_task "task-9" { text := none, column := none }
        [⟨none, "task-1", "a", "todo"⟩]).2 = Response.badRequest "No fields to update" :=
  ⟨by decide,
    (empty_body_before_existence [⟨none, "task-1", "a", "todo"⟩] "task-9"
        (by decide)).1⟩

end Grantify
